import Mathlib

/-!
# Policy target references and ExtProc validation rules (api/v1alpha1)

A shallow embedding of

* `api/v1alpha1/policy_helpers.go`: the types `PolicyTargetReferences`,
  `TargetSelector`, the accessor `PolicyTargetReferences.GetTargetRefs` and the
  `XValidation` rule declared on `TargetSelector`;
* `api/v1alpha1/ext_proc_types.go`: the type `ExtProc` and the three
  `XValidation` rules declared on it.

Go pointers (`*T`) and optional JSON fields are `Option T`.  A Go slice is a
`Slice T`, which keeps the nil slice apart from an empty non-nil one.  The
`XValidation` rules are CEL expressions; each is embedded as a Boolean function
of the object it is declared on, `has(self.x)` being `Option.isSome`.
-/

namespace V1alpha1

/-! ## Go slices -/

/-- A Go slice value: `none` is the nil slice, `some xs` is a non-nil slice
whose elements are `xs` in order. -/
abbrev Slice (α : Type) := Option (List α)

/-- Go `len(s)`: the nil slice has length 0. -/
def Slice.len {α : Type} : Slice α → Nat
  | none => 0
  | some xs => xs.length

/-- The elements one gets by ranging over a slice, in order; ranging over the
nil slice yields nothing. -/
def Slice.elems {α : Type} : Slice α → List α
  | none => []
  | some xs => xs

/-! ## policy_helpers.go -/

/-- The Gateway API type `LocalPolicyTargetReferenceWithSectionName`
(`group`, `kind`, `name`, optional `sectionName`), all of them strings. -/
structure LocalPolicyTargetReferenceWithSectionName where
  Group : String
  Kind : String
  Name : String
  SectionName : Option String
  deriving DecidableEq, Repr

/-- `TargetSelector`: `Group *Group`, `Kind Kind`, `MatchLabels map[string]string`
(the map is kept as its list of entries). -/
structure TargetSelector where
  Group : Option String
  Kind : String
  MatchLabels : List (String × String)
  deriving DecidableEq, Repr

/-- `PolicyTargetReferences`: the deprecated single `TargetRef` pointer, the
`TargetRefs` slice and the `TargetSelectors` slice. -/
structure PolicyTargetReferences where
  TargetRef : Option LocalPolicyTargetReferenceWithSectionName
  TargetRefs : Slice LocalPolicyTargetReferenceWithSectionName
  TargetSelectors : Slice TargetSelector
  deriving DecidableEq, Repr

/-- `func (p PolicyTargetReferences) GetTargetRefs()`:
`if p.TargetRef != nil { return []T{*p.TargetRef} }; return p.TargetRefs`. -/
def PolicyTargetReferences.GetTargetRefs (p : PolicyTargetReferences) :
    Slice LocalPolicyTargetReferenceWithSectionName :=
  match p.TargetRef with
  | some r => some [r]
  | none => p.TargetRefs

/-! ## XValidation markers -/

/-- One `+kubebuilder:validation:XValidation` marker on a type: the CEL `rule`
evaluated on the object (`self`) and the `message` reported when it is false. -/
structure XValidation (α : Type) where
  message : String
  rule : α → Bool

/-- The messages of the rules that an object fails, in declaration order. -/
def XValidation.failures {α : Type} (rules : List (XValidation α)) (self : α) : List String :=
  (rules.filter fun r => !r.rule self).map fun r => r.message

/-- An object is accepted when every rule declared on its type evaluates to true. -/
def XValidation.accepts {α : Type} (rules : List (XValidation α)) (self : α) : Bool :=
  rules.all fun r => r.rule self

/-- The rule on `TargetSelector`:
`has(self.group) ? self.group == 'gateway.networking.k8s.io' : true`. -/
def TargetSelector.groupRule : XValidation TargetSelector where
  message := "group must be gateway.networking.k8s.io"
  rule := fun self =>
    match self.Group with
    | some g => g == "gateway.networking.k8s.io"
    | none => true

/-- The rules declared on `TargetSelector`. -/
def TargetSelector.xvalidations : List (XValidation TargetSelector) :=
  [TargetSelector.groupRule]

/-! ## ext_proc_types.go -/

/-- `ExtProcBodyProcessingMode` is a Go string type. -/
abbrev ExtProcBodyProcessingMode := String

def StreamedExtProcBodyProcessingMode : ExtProcBodyProcessingMode := "Streamed"
def BufferedExtProcBodyProcessingMode : ExtProcBodyProcessingMode := "Buffered"
def BufferedPartialExtBodyHeaderProcessingMode : ExtProcBodyProcessingMode := "BufferedPartial"

/-- `ProcessingModeOptions`: `Body *ExtProcBodyProcessingMode`. -/
structure ProcessingModeOptions where
  Body : Option ExtProcBodyProcessingMode
  deriving DecidableEq, Repr

/-- `ExtProcProcessingMode`: optional `Request` and `Response` options. -/
structure ExtProcProcessingMode where
  Request : Option ProcessingModeOptions
  Response : Option ProcessingModeOptions
  deriving DecidableEq, Repr

/-- Modelled from the spec: the element type of the backend reference fields is
declared outside `ext_proc_types.go`.  The rules on `ExtProc` read its `group`
and `kind` (strings, the core group being `""`); `name` identifies the
target. -/
structure BackendRef where
  group : String
  kind : String
  name : String
  deriving DecidableEq, Repr

/-- Modelled from the spec: `BackendCluster`, inlined into `ExtProc`, is
declared outside `ext_proc_types.go`.  It carries the deprecated single
`backendRef` field and the plural `backendRefs` list that the rules on
`ExtProc` read; a field that is absent from the object is `none`. -/
structure BackendCluster where
  BackendRef : Option BackendRef
  BackendRefs : Slice V1alpha1.BackendRef
  deriving DecidableEq, Repr

/-- `ExtProc`: the inlined `BackendCluster`, `MessageTimeout *Duration`,
`FailOpen *bool`, `ProcessingMode *ExtProcProcessingMode`. -/
structure ExtProc extends BackendCluster where
  MessageTimeout : Option String
  FailOpen : Option Bool
  ProcessingMode : Option ExtProcProcessingMode
  deriving DecidableEq, Repr

/-- First rule on `ExtProc`: `!has(self.backendRef)`. -/
def ExtProc.backendRefRule : XValidation ExtProc where
  message := "BackendRefs must be used, backendRef is not supported."
  rule := fun self => !self.BackendRef.isSome

/-- Second rule on `ExtProc`:
`has(self.backendRefs) ? self.backendRefs.all(f, f.kind == 'Service' || f.kind == 'Backend') : true`. -/
def ExtProc.kindRule : XValidation ExtProc where
  message := "BackendRefs only supports Service and Backend kind."
  rule := fun self =>
    match self.BackendRefs with
    | some refs => refs.all fun f => f.kind == "Service" || f.kind == "Backend"
    | none => true

/-- Third rule on `ExtProc`:
`has(self.backendRefs) ? (self.backendRefs.all(f, f.group == "" || f.group == 'gateway.envoyproxy.io')) : true`. -/
def ExtProc.groupRule : XValidation ExtProc where
  message := "BackendRefs only supports Core and gateway.envoyproxy.io group."
  rule := fun self =>
    match self.BackendRefs with
    | some refs => refs.all fun f => f.group == "" || f.group == "gateway.envoyproxy.io"
    | none => true

/-- The rules declared on `ExtProc`, in declaration order. -/
def ExtProc.xvalidations : List (XValidation ExtProc) :=
  [ExtProc.backendRefRule, ExtProc.kindRule, ExtProc.groupRule]

/-! ## Concrete objects used in the examples -/

def refA : LocalPolicyTargetReferenceWithSectionName :=
  ⟨"gateway.networking.k8s.io", "Gateway", "gw-a", none⟩

def refB : LocalPolicyTargetReferenceWithSectionName :=
  ⟨"gateway.networking.k8s.io", "HTTPRoute", "route-b", some "http"⟩

def selTeam : TargetSelector :=
  ⟨some "gateway.networking.k8s.io", "HTTPRoute", [("team", "payments")]⟩

def selAll : TargetSelector :=
  ⟨none, "Gateway", []⟩

/-- A policy with the legacy reference and a populated list. -/
def legacyPolicy : PolicyTargetReferences :=
  ⟨some refA, some [refB, refA], some [selTeam]⟩

/-- A policy with no legacy reference and two distinct list entries. -/
def listPolicy : PolicyTargetReferences :=
  ⟨none, some [refB, refA], none⟩

/-- A policy with no legacy reference that lists the same reference twice. -/
def dupPolicy : PolicyTargetReferences :=
  ⟨none, some [refA, refA], none⟩

/-- A policy with a nil legacy reference and empty, non-nil slices. -/
def inertPolicy : PolicyTargetReferences :=
  ⟨none, some [], some []⟩

def svcRef : BackendRef := ⟨"", "Service", "ext-proc-svc"⟩
def beRef : BackendRef := ⟨"gateway.envoyproxy.io", "Backend", "ext-proc-be"⟩

/-- An `ExtProc` that sets the deprecated single reference next to an
admissible plural list. -/
def legacyExtProc : ExtProc :=
  { BackendRef := some svcRef, BackendRefs := some [svcRef, beRef],
    MessageTimeout := none, FailOpen := none, ProcessingMode := none }

/-- An `ExtProc` that sets neither `backendRef` nor `backendRefs`. -/
def bareExtProc : ExtProc :=
  { BackendRef := none, BackendRefs := none,
    MessageTimeout := none, FailOpen := none, ProcessingMode := none }

/-- An `ExtProc` that uses the plural list with two admissible entries. -/
def pluralExtProc : ExtProc :=
  { BackendRef := none, BackendRefs := some [svcRef, beRef],
    MessageTimeout := some "200ms", FailOpen := some false, ProcessingMode := none }

/-! ## Lemmas on the rules -/

/-- A message is reported exactly when some declared rule with that message is false. -/
theorem mem_failures_iff {α : Type} (rules : List (XValidation α)) (self : α) (m : String) :
    m ∈ XValidation.failures rules self ↔ ∃ r ∈ rules, r.rule self = false ∧ r.message = m := by
  simp [XValidation.failures, and_assoc]

/-- An object is accepted exactly when every declared rule is true on it. -/
theorem accepts_iff {α : Type} (rules : List (XValidation α)) (self : α) :
    XValidation.accepts rules self = true ↔ ∀ r ∈ rules, r.rule self = true := by
  simp [XValidation.accepts]

/-- An object is accepted exactly when no message is reported. -/
theorem accepts_iff_failures_nil {α : Type} (rules : List (XValidation α)) (self : α) :
    XValidation.accepts rules self = true ↔ XValidation.failures rules self = [] := by
  simp [XValidation.accepts, XValidation.failures, List.filter_eq_nil_iff]

/-- A false rule makes the object rejected. -/
theorem not_accepts_of_rule_false {α : Type} (rules : List (XValidation α)) (self : α)
    (r : XValidation α) (hr : r ∈ rules) (hf : r.rule self = false) :
    XValidation.accepts rules self = false := by
  cases hacc : XValidation.accepts rules self with
  | false => rfl
  | true =>
    have := (accepts_iff rules self).1 hacc r hr
    rw [hf] at this
    exact absurd this (by decide)

theorem backendRefRule_iff (e : ExtProc) :
    ExtProc.backendRefRule.rule e = true ↔ e.BackendRef = none := by
  cases h : e.BackendRef <;> simp [ExtProc.backendRefRule, h]

theorem kindRule_iff (e : ExtProc) :
    ExtProc.kindRule.rule e = true ↔
      ∀ f ∈ Slice.elems e.BackendRefs, f.kind = "Service" ∨ f.kind = "Backend" := by
  cases h : e.BackendRefs <;> simp [ExtProc.kindRule, h, Slice.elems]

theorem groupRule_iff (e : ExtProc) :
    ExtProc.groupRule.rule e = true ↔
      ∀ f ∈ Slice.elems e.BackendRefs, f.group = "" ∨ f.group = "gateway.envoyproxy.io" := by
  cases h : e.BackendRefs <;> simp [ExtProc.groupRule, h, Slice.elems]

/-- The model accepts an `ExtProc` that uses the plural list with admissible entries. -/
theorem pluralExtProc_accepted :
    XValidation.accepts ExtProc.xvalidations pluralExtProc = true ∧
      XValidation.failures ExtProc.xvalidations pluralExtProc = [] := by
  decide

theorem extProc_accepts_iff (e : ExtProc) :
    XValidation.accepts ExtProc.xvalidations e = true ↔
      ExtProc.backendRefRule.rule e = true ∧ ExtProc.kindRule.rule e = true ∧
        ExtProc.groupRule.rule e = true := by
  simp [XValidation.accepts, ExtProc.xvalidations]

/-! ## GetTargetRefs -/

/-- Unfolding of the accessor when the legacy pointer is set. -/
theorem getTargetRefs_of_some (p : PolicyTargetReferences)
    (r : LocalPolicyTargetReferenceWithSectionName) (h : p.TargetRef = some r) :
    p.GetTargetRefs = some [r] := by
  simp [PolicyTargetReferences.GetTargetRefs, h]

/-- Unfolding of the accessor when the legacy pointer is nil. -/
theorem getTargetRefs_of_none (p : PolicyTargetReferences) (h : p.TargetRef = none) :
    p.GetTargetRefs = p.TargetRefs := by
  simp [PolicyTargetReferences.GetTargetRefs, h]

/-- C1: when the legacy `TargetRef` is set, `GetTargetRefs` returns a slice of
length exactly 1 whose only element is `*p.TargetRef`, whatever `TargetRefs`
holds; no element of `TargetRefs` other than that one is in the result. -/
theorem C1_legacy_ref_masks_list (p : PolicyTargetReferences)
    (r : LocalPolicyTargetReferenceWithSectionName) (h : p.TargetRef = some r) :
    p.GetTargetRefs = some [r] ∧ Slice.len p.GetTargetRefs = 1 ∧
      ∀ x, x ∈ Slice.elems p.GetTargetRefs ↔ x = r := by
  rw [getTargetRefs_of_some p r h]
  simp [Slice.len, Slice.elems]

/-- C1 at `legacyPolicy`, whose list holds another reference and the legacy one. -/
theorem C1_legacy_ref_masks_list_witness :
    legacyPolicy.TargetRef = some refA ∧ legacyPolicy.TargetRefs = some [refB, refA] ∧
      (legacyPolicy.GetTargetRefs = some [refA] ∧ Slice.len legacyPolicy.GetTargetRefs = 1 ∧
        ∀ x, x ∈ Slice.elems legacyPolicy.GetTargetRefs ↔ x = refA) :=
  ⟨rfl, rfl, C1_legacy_ref_masks_list legacyPolicy refA rfl⟩

/-- C2: when the legacy `TargetRef` is nil, `GetTargetRefs` returns exactly
`p.TargetRefs`: the same slice, so the same elements in the same order. -/
theorem C2_list_returned_as_is (p : PolicyTargetReferences) (h : p.TargetRef = none) :
    p.GetTargetRefs = p.TargetRefs ∧
      Slice.elems p.GetTargetRefs = Slice.elems p.TargetRefs ∧
      ∀ x, x ∈ Slice.elems p.GetTargetRefs ↔ x ∈ Slice.elems p.TargetRefs := by
  rw [getTargetRefs_of_none p h]
  simp

/-- C2 at `listPolicy`. -/
theorem C2_list_returned_as_is_witness :
    listPolicy.TargetRef = none ∧
      (listPolicy.GetTargetRefs = listPolicy.TargetRefs ∧
        Slice.elems listPolicy.GetTargetRefs = Slice.elems listPolicy.TargetRefs ∧
        ∀ x, x ∈ Slice.elems listPolicy.GetTargetRefs ↔ x ∈ Slice.elems listPolicy.TargetRefs) :=
  ⟨rfl, C2_list_returned_as_is listPolicy rfl⟩

/-- C3 fails: `dupPolicy` has a nil legacy reference and a non-empty list that
names `refA` twice, and `GetTargetRefs` returns `refA` twice, so the result has
a duplicate. -/
theorem C3_duplicates_not_collapsed :
    dupPolicy.TargetRef = none ∧ 0 < Slice.len dupPolicy.TargetRefs ∧
      List.count refA (Slice.elems dupPolicy.GetTargetRefs) = 2 ∧
      ¬ (Slice.elems dupPolicy.GetTargetRefs).Nodup := by
  decide

/-- C3 amended: with a nil legacy reference and a non-empty list,
`GetTargetRefs` returns `p.TargetRefs` unchanged (the same slice, so the same
elements in the same order); hence every reference occurs in the result exactly
as often as in `p.TargetRefs`, and the result is free of duplicates exactly when
the list is: duplicates are not collapsed. -/
theorem C3_multiplicity_preserved (p : PolicyTargetReferences) (h : p.TargetRef = none)
    (hne : 0 < Slice.len p.TargetRefs) :
    p.GetTargetRefs = p.TargetRefs ∧
      Slice.elems p.GetTargetRefs = Slice.elems p.TargetRefs ∧
      (∀ x, List.count x (Slice.elems p.GetTargetRefs) = List.count x (Slice.elems p.TargetRefs)) ∧
      ((Slice.elems p.GetTargetRefs).Nodup ↔ (Slice.elems p.TargetRefs).Nodup) ∧
      0 < Slice.len p.GetTargetRefs := by
  rw [getTargetRefs_of_none p h]
  exact ⟨rfl, rfl, fun _ => rfl, Iff.rfl, hne⟩

/-- C3 amended, at `dupPolicy`: the result is the list `[refA, refA]` as stored. -/
theorem C3_multiplicity_preserved_witness :
    dupPolicy.TargetRef = none ∧ 0 < Slice.len dupPolicy.TargetRefs ∧
      dupPolicy.GetTargetRefs = some [refA, refA] ∧
      (dupPolicy.GetTargetRefs = dupPolicy.TargetRefs ∧
        Slice.elems dupPolicy.GetTargetRefs = Slice.elems dupPolicy.TargetRefs ∧
        (∀ x, List.count x (Slice.elems dupPolicy.GetTargetRefs)
          = List.count x (Slice.elems dupPolicy.TargetRefs)) ∧
        ((Slice.elems dupPolicy.GetTargetRefs).Nodup ↔ (Slice.elems dupPolicy.TargetRefs).Nodup) ∧
        0 < Slice.len dupPolicy.GetTargetRefs) :=
  ⟨rfl, by decide, rfl, C3_multiplicity_preserved dupPolicy rfl (by decide)⟩

/-- C4: with a nil `TargetRef` and `TargetRefs`, `TargetSelectors` each nil or
empty, `GetTargetRefs` (a total function) returns a slice of length 0 with no
element. -/
theorem C4_inert_policy_empty (p : PolicyTargetReferences) (h : p.TargetRef = none)
    (hrefs : p.TargetRefs = none ∨ p.TargetRefs = some [])
    (_hsel : p.TargetSelectors = none ∨ p.TargetSelectors = some []) :
    Slice.len p.GetTargetRefs = 0 ∧ Slice.elems p.GetTargetRefs = [] := by
  rw [getTargetRefs_of_none p h]
  rcases hrefs with h1 | h1 <;> simp [h1, Slice.len, Slice.elems]

/-- C4 at `inertPolicy` (empty, non-nil slices). -/
theorem C4_inert_policy_empty_witness :
    inertPolicy.TargetRef = none ∧
      (Slice.len inertPolicy.GetTargetRefs = 0 ∧ Slice.elems inertPolicy.GetTargetRefs = []) :=
  ⟨rfl, C4_inert_policy_empty inertPolicy rfl (Or.inr rfl) (Or.inr rfl)⟩

/-- C10: two `PolicyTargetReferences` that agree on `TargetRef` and `TargetRefs`
have the same `GetTargetRefs`, whatever their `TargetSelectors`; every element of
the result is the legacy reference or an element of `TargetRefs`. -/
theorem C10_selectors_ignored (p q : PolicyTargetReferences)
    (hRef : p.TargetRef = q.TargetRef) (hRefs : p.TargetRefs = q.TargetRefs) :
    p.GetTargetRefs = q.GetTargetRefs ∧
      ∀ x, x ∈ Slice.elems p.GetTargetRefs → p.TargetRef = some x ∨ x ∈ Slice.elems p.TargetRefs := by
  refine ⟨by simp [PolicyTargetReferences.GetTargetRefs, hRef, hRefs], ?_⟩
  intro x hx
  cases hp : p.TargetRef with
  | none =>
    rw [getTargetRefs_of_none p hp] at hx
    exact Or.inr hx
  | some r =>
    rw [getTargetRefs_of_some p r hp] at hx
    simp [Slice.elems] at hx
    exact Or.inl (by rw [hx])

/-- C10 at two policies that differ only in their selectors. -/
theorem C10_selectors_ignored_witness :
    (PolicyTargetReferences.mk none (some [refB, refA]) (some [selAll, selTeam])).TargetSelectors
        ≠ listPolicy.TargetSelectors ∧
      ((PolicyTargetReferences.mk none (some [refB, refA]) (some [selAll, selTeam])).GetTargetRefs
          = listPolicy.GetTargetRefs ∧
        ∀ x, x ∈ Slice.elems
              (PolicyTargetReferences.mk none (some [refB, refA]) (some [selAll, selTeam])).GetTargetRefs →
            (PolicyTargetReferences.mk none (some [refB, refA]) (some [selAll, selTeam])).TargetRef = some x ∨
            x ∈ Slice.elems
              (PolicyTargetReferences.mk none (some [refB, refA]) (some [selAll, selTeam])).TargetRefs) :=
  ⟨by decide, C10_selectors_ignored _ listPolicy rfl rfl⟩

/-! ## Rules on ExtProc -/

/-- C5: the kind rule declared on `ExtProc` is true exactly when every entry of
`backendRefs` has kind `Service` or `Backend`; it is true when `backendRefs` is
absent; an entry of another kind makes the rule false, the `ExtProc` rejected,
and the message "BackendRefs only supports Service and Backend kind." reported. -/
theorem C5_kind_rule :
    ExtProc.kindRule ∈ ExtProc.xvalidations ∧
      ExtProc.kindRule.message = "BackendRefs only supports Service and Backend kind." ∧
      ∀ e : ExtProc,
        (ExtProc.kindRule.rule e = true ↔
          ∀ f ∈ Slice.elems e.BackendRefs, f.kind = "Service" ∨ f.kind = "Backend") ∧
        (e.BackendRefs = none → ExtProc.kindRule.rule e = true) ∧
        ((∃ f ∈ Slice.elems e.BackendRefs, f.kind ≠ "Service" ∧ f.kind ≠ "Backend") →
          ExtProc.kindRule.rule e = false ∧
          XValidation.accepts ExtProc.xvalidations e = false ∧
          "BackendRefs only supports Service and Backend kind."
            ∈ XValidation.failures ExtProc.xvalidations e) := by
  have hmem : ExtProc.kindRule ∈ ExtProc.xvalidations := by simp [ExtProc.xvalidations]
  refine ⟨hmem, rfl, fun e => ⟨kindRule_iff e, ?_, ?_⟩⟩
  · intro h
    simp [ExtProc.kindRule, h]
  · rintro ⟨f, hf, h1, h2⟩
    have hfalse : ExtProc.kindRule.rule e = false := by
      cases hr : ExtProc.kindRule.rule e with
      | false => rfl
      | true =>
        rcases (kindRule_iff e).1 hr f hf with h | h
        · exact absurd h h1
        · exact absurd h h2
    exact ⟨hfalse, not_accepts_of_rule_false _ e _ hmem hfalse,
      (mem_failures_iff _ e _).2 ⟨_, hmem, hfalse, rfl⟩⟩

/-- C6: the group rule declared on `ExtProc` is true exactly when every entry of
`backendRefs` has group `""` (core) or `gateway.envoyproxy.io`; it is true when
`backendRefs` is absent; an entry of another group makes the rule false and the
`ExtProc` rejected with the rule's message. -/
theorem C6_group_rule :
    ExtProc.groupRule ∈ ExtProc.xvalidations ∧
      ExtProc.groupRule.message
        = "BackendRefs only supports Core and gateway.envoyproxy.io group." ∧
      ∀ e : ExtProc,
        (ExtProc.groupRule.rule e = true ↔
          ∀ f ∈ Slice.elems e.BackendRefs, f.group = "" ∨ f.group = "gateway.envoyproxy.io") ∧
        (e.BackendRefs = none → ExtProc.groupRule.rule e = true) ∧
        ((∃ f ∈ Slice.elems e.BackendRefs, f.group ≠ "" ∧ f.group ≠ "gateway.envoyproxy.io") →
          ExtProc.groupRule.rule e = false ∧
          XValidation.accepts ExtProc.xvalidations e = false ∧
          "BackendRefs only supports Core and gateway.envoyproxy.io group."
            ∈ XValidation.failures ExtProc.xvalidations e) := by
  have hmem : ExtProc.groupRule ∈ ExtProc.xvalidations := by simp [ExtProc.xvalidations]
  refine ⟨hmem, rfl, fun e => ⟨groupRule_iff e, ?_, ?_⟩⟩
  · intro h
    simp [ExtProc.groupRule, h]
  · rintro ⟨f, hf, h1, h2⟩
    have hfalse : ExtProc.groupRule.rule e = false := by
      cases hr : ExtProc.groupRule.rule e with
      | false => rfl
      | true =>
        rcases (groupRule_iff e).1 hr f hf with h | h
        · exact absurd h h1
        · exact absurd h h2
    exact ⟨hfalse, not_accepts_of_rule_false _ e _ hmem hfalse,
      (mem_failures_iff _ e _).2 ⟨_, hmem, hfalse, rfl⟩⟩

/-- C7: every `ExtProc` in which the deprecated `backendRef` is set is
rejected by the rules declared on the type, whatever `backendRefs` holds, with
the message "BackendRefs must be used, backendRef is not supported.". -/
theorem C7_backendRef_rejected (e : ExtProc) (h : e.BackendRef.isSome = true) :
    ExtProc.backendRefRule.rule e = false ∧
      XValidation.accepts ExtProc.xvalidations e = false ∧
      "BackendRefs must be used, backendRef is not supported."
        ∈ XValidation.failures ExtProc.xvalidations e := by
  have hmem : ExtProc.backendRefRule ∈ ExtProc.xvalidations := by simp [ExtProc.xvalidations]
  have hfalse : ExtProc.backendRefRule.rule e = false := by
    simp [ExtProc.backendRefRule, h]
  exact ⟨hfalse, not_accepts_of_rule_false _ e _ hmem hfalse,
    (mem_failures_iff _ e _).2 ⟨_, hmem, hfalse, rfl⟩⟩

/-- C7 at `legacyExtProc`, which sets both fields. -/
theorem C7_backendRef_rejected_witness :
    legacyExtProc.BackendRef.isSome = true ∧ legacyExtProc.BackendRefs.isSome = true ∧
      (ExtProc.backendRefRule.rule legacyExtProc = false ∧
        XValidation.accepts ExtProc.xvalidations legacyExtProc = false ∧
        "BackendRefs must be used, backendRef is not supported."
          ∈ XValidation.failures ExtProc.xvalidations legacyExtProc) :=
  ⟨rfl, rfl, C7_backendRef_rejected legacyExtProc rfl⟩

/-- C8 fails: `bareExtProc` sets neither `backendRef` nor `backendRefs`, and
all three rules declared on `ExtProc` are true on it, so it is accepted and no
message is reported. -/
theorem C8_bare_extProc_accepted :
    bareExtProc.BackendRef = none ∧ bareExtProc.BackendRefs = none ∧
      XValidation.accepts ExtProc.xvalidations bareExtProc = true ∧
      XValidation.failures ExtProc.xvalidations bareExtProc = [] := by
  decide

/-- C8 amended: the rules declared on `ExtProc` accept it exactly when
`backendRef` is unset and every entry of `backendRefs`, if the list is present,
has an admissible kind and group; an `ExtProc` with neither field set is
accepted. -/
theorem C8_accepts_characterised :
    ∀ e : ExtProc,
      (XValidation.accepts ExtProc.xvalidations e = true ↔
        e.BackendRef = none ∧
          ∀ f ∈ Slice.elems e.BackendRefs,
            (f.kind = "Service" ∨ f.kind = "Backend") ∧
              (f.group = "" ∨ f.group = "gateway.envoyproxy.io")) ∧
      (e.BackendRef = none → e.BackendRefs = none →
        XValidation.accepts ExtProc.xvalidations e = true) := by
  intro e
  have key : XValidation.accepts ExtProc.xvalidations e = true ↔
      e.BackendRef = none ∧
        ∀ f ∈ Slice.elems e.BackendRefs,
          (f.kind = "Service" ∨ f.kind = "Backend") ∧
            (f.group = "" ∨ f.group = "gateway.envoyproxy.io") := by
    rw [extProc_accepts_iff, backendRefRule_iff, kindRule_iff, groupRule_iff]
    constructor
    · rintro ⟨h1, h2, h3⟩
      exact ⟨h1, fun f hf => ⟨h2 f hf, h3 f hf⟩⟩
    · rintro ⟨h1, h2⟩
      exact ⟨h1, fun f hf => (h2 f hf).1, fun f hf => (h2 f hf).2⟩
  refine ⟨key, fun h1 h2 => key.2 ⟨h1, ?_⟩⟩
  intro f hf
  rw [h2] at hf
  simp [Slice.elems] at hf

/-! ## Rule on TargetSelector -/

/-- C9: the rule declared on `TargetSelector` is true exactly when `group` is
unset or equals `gateway.networking.k8s.io`; a selector whose group is set to
anything else, the empty string included, is rejected with the message
"group must be gateway.networking.k8s.io"; the outcome is the same for all
`kind` and `matchLabels`. -/
theorem C9_selector_group_rule :
    TargetSelector.groupRule ∈ TargetSelector.xvalidations ∧
      TargetSelector.groupRule.message = "group must be gateway.networking.k8s.io" ∧
      (∀ s : TargetSelector,
        (TargetSelector.groupRule.rule s = true ↔
          s.Group = none ∨ s.Group = some "gateway.networking.k8s.io") ∧
        (XValidation.accepts TargetSelector.xvalidations s = TargetSelector.groupRule.rule s) ∧
        (∀ g, s.Group = some g → g ≠ "gateway.networking.k8s.io" →
          XValidation.accepts TargetSelector.xvalidations s = false ∧
          XValidation.failures TargetSelector.xvalidations s
            = ["group must be gateway.networking.k8s.io"])) ∧
      (∀ k m, XValidation.accepts TargetSelector.xvalidations ⟨some "", k, m⟩ = false) ∧
      (∀ g k1 m1 k2 m2,
        TargetSelector.groupRule.rule ⟨g, k1, m1⟩ = TargetSelector.groupRule.rule ⟨g, k2, m2⟩) := by
  refine ⟨by simp [TargetSelector.xvalidations], rfl, fun s => ⟨?_, ?_, ?_⟩, ?_, ?_⟩
  · cases h : s.Group <;> simp [TargetSelector.groupRule, h]
  · simp [XValidation.accepts, TargetSelector.xvalidations]
  · intro g hg hne
    simp [XValidation.accepts, XValidation.failures, TargetSelector.xvalidations,
      TargetSelector.groupRule, hg, hne]
  · intro k m
    simp [XValidation.accepts, TargetSelector.xvalidations, TargetSelector.groupRule]
  · intro g k1 m1 k2 m2
    rfl

end V1alpha1
